import Mathlib

/-!
The gnome-bluetooth applet: the pairing-agent request table.

A shallow embedding of `applet/lib/bluetooth-applet.c`: the table of pending
agent requests (`pending_requests`), the inbound agent callbacks that fill it
(`pincode_request`, `passkey_request`, `confirm_request`, `authorize_request`,
`cancel_request`) and the replies of the user interface that empty it
(`bluetooth_applet_agent_reply_*`).

Calls that leave the process (completing a D-Bus method invocation, asking the
Bluetooth client to trust a device, emitting a GObject signal) are recorded, in
program order, as a list of `Effect`s returned next to the new applet state.
-/

namespace GnomeBluetooth

/-! ## Values handed to the outside world -/

/-- A `DBusGMethodInvocation*` that is not NULL, identified by its address. In
dbus-glib it points to a plain C struct, not to a GObject instance. -/
abbrev DBusGMethodInvocation := Nat

/-- Modelled from the spec: the error codes of `lib/bluetooth-agent.h`, a header
that is not among the sources; the spec names one fixed "request rejected"
kind, and the applet only ever builds `AGENT_ERROR_REJECT`. -/
inductive AgentError where
  | AGENT_ERROR_REJECT
  deriving DecidableEq, Repr

/-- The `GError` built by `g_error_new (AGENT_ERROR, code, message)`. -/
structure GError where
  code : AgentError
  message : String
  deriving DecidableEq, Repr

/-- The variadic payload of `dbus_g_method_return`: nothing, a string or a
`gint`. -/
inductive DBusReturn where
  | nothing
  | text (s : String)
  | integer (n : Int)
  deriving DecidableEq, Repr

/-- The agent signals of the applet with their arguments (`signals[]`,
`g_signal_emit`). `name` and `long_name` are C strings that may be NULL. -/
inductive Signal where
  | SIGNAL_PINCODE_REQUEST (path : String) (name long_name : Option String) (numeric : Bool)
  | SIGNAL_CONFIRM_REQUEST (path : String) (name long_name : Option String) (pin : Nat)
  | SIGNAL_AUTHORIZE_REQUEST (path : String) (name long_name : Option String) (uuid : String)
  | SIGNAL_CANCEL_REQUEST
  | SIGNAL_DEVICES_CHANGED
  deriving DecidableEq, Repr

/-- The GObject properties of the applet (`properties[]`). -/
inductive Property where
  | PROP_KILLSWITCH_STATE
  | PROP_DISCOVERABLE
  | PROP_FULL_MENU
  deriving DecidableEq, Repr

/-- One call that leaves the applet. The context of a completion is the pointer
the code passes, which is NULL (`none`) when the table lookup found no entry or
an entry whose value is NULL.
`client_set_trusted` also records what the Bluetooth client answered.
`agent_unregister` and `agent_register` are the calls to the agent object of
`lib/bluetooth-agent.c`, `notify` is `g_object_notify_by_pspec`. -/
inductive Effect where
  | method_return (context : Option DBusGMethodInvocation) (value : DBusReturn)
  | method_return_error (context : Option DBusGMethodInvocation) (error : GError)
  | client_set_trusted (device : String) (trusted : Bool) (answer : Bool)
  | signal_emit (signal : Signal)
  | agent_unregister
  | agent_register (adapter : Option String)
  | notify (property : Property)
  deriving DecidableEq, Repr

/-! ## The hash table of pending requests -/

/-- The `GHashTable` created by
`g_hash_table_new_full (g_str_hash, g_str_equal, g_free, g_object_unref)`:
string keys compared by content, one entry per key. A value is the `gpointer`
that was inserted, which may be NULL (`none`). -/
abbrev GHashTable := List (String × Option DBusGMethodInvocation)

/-- The value stored under `key`; NULL when there is no entry, and also when the
entry holds NULL. -/
def g_hash_table_lookup : GHashTable → String → Option DBusGMethodInvocation
  | [], _ => none
  | (k, v) :: rest, key => if k = key then v else g_hash_table_lookup rest key

/-- Whether the table has an entry under `key`, whatever its value
(`g_hash_table_contains`). -/
def g_hash_table_contains : GHashTable → String → Bool
  | [], _ => false
  | (k, _) :: rest, key => if k = key then true else g_hash_table_contains rest key

/-- GLib's insert: a key already in the table keeps its entry and gets the new
value (the old value is released, not completed); a new key gets a new entry. -/
def g_hash_table_insert : GHashTable → String → Option DBusGMethodInvocation → GHashTable
  | [], key, value => [(key, value)]
  | (k, v) :: rest, key, value =>
      if k = key then (k, value) :: rest else (k, v) :: g_hash_table_insert rest key value

/-- Removes the entry stored under `key`, if any. -/
def g_hash_table_remove (table : GHashTable) (key : String) : GHashTable :=
  table.filter (fun entry => decide (entry.1 ≠ key))

/-- Removes every entry. -/
def g_hash_table_remove_all (_table : GHashTable) : GHashTable := []

/-- Calls `func key value` once for each entry and collects what the calls emit. -/
def g_hash_table_foreach (table : GHashTable)
    (func : String → Option DBusGMethodInvocation → List Effect) : List Effect :=
  (table.map (fun entry => func entry.1 entry.2)).flatten

/-- GLib's `g_object_ref` applied to a method invocation. The function starts
with `g_return_val_if_fail (G_IS_OBJECT (object), NULL)`; an invocation of
dbus-glib is not a GObject instance, so the check fails and the call returns
NULL instead of its argument. -/
def g_object_ref (_object : DBusGMethodInvocation) : Option DBusGMethodInvocation := none

/-! ## The applet -/

/-- Modelled from the spec: the killswitch states of `lib/bluetooth-killswitch.h`,
a header that is not among the sources. The applet names `NO_ADAPTER`,
`UNBLOCKED` and `HARD_BLOCKED`; `SOFT_BLOCKED` is the remaining state of a
switch. -/
inductive BluetoothKillswitchState where
  | BLUETOOTH_KILLSWITCH_STATE_NO_ADAPTER
  | BLUETOOTH_KILLSWITCH_STATE_SOFT_BLOCKED
  | BLUETOOTH_KILLSWITCH_STATE_UNBLOCKED
  | BLUETOOTH_KILLSWITCH_STATE_HARD_BLOCKED
  deriving DecidableEq, Repr

/-- The killswitch manager as the applet sees it: what
`bluetooth_killswitch_has_killswitches` and `bluetooth_killswitch_get_state`
answer. -/
structure BluetoothKillswitch where
  has_killswitches : Bool
  state : BluetoothKillswitchState
  deriving DecidableEq, Repr

/-- Modelled from the spec: the service states of `lib/bluetooth-enums.h`, a
header that is not among the sources; the applet tests for `CONNECTED` and
`PLAYING`. -/
inductive BluetoothStatus where
  | BLUETOOTH_STATUS_INVALID
  | BLUETOOTH_STATUS_DISCONNECTED
  | BLUETOOTH_STATUS_CONNECTED
  | BLUETOOTH_STATUS_CONNECTING
  | BLUETOOTH_STATUS_PLAYING
  deriving DecidableEq, Repr

/-- A device row of the client's tree model, with the columns the applet reads.
`services` is a `GHashTable*` and `uuids` a string vector, both may be NULL. -/
structure DeviceRow where
  address : String
  proxy : String
  services : Option (List (String × BluetoothStatus))
  alias_name : String
  uuids : Option (List String)
  type : Nat
  deriving DecidableEq, Repr

/-- An adapter row of the client's tree model (a top-level row) with the columns
the applet reads and its child rows, the devices. -/
structure AdapterRow where
  is_default : Bool
  powered : Bool
  discoverable : Bool
  proxy : String
  devices : List DeviceRow
  deriving DecidableEq, Repr

/-- The tree model of the Bluetooth client: the adapter rows in model order. -/
abbrev GtkTreeModel := List AdapterRow

/-- A `GtkTreeIter` on a top-level row: the position of the row. -/
abbrev GtkTreeIter := Nat

/-- The agent object of `lib/bluetooth-agent.c` as far as the applet uses it:
the adapter it was registered on, if any. -/
structure BluetoothAgent where
  adapter : Option String
  deriving DecidableEq, Repr

/-- The fields of `struct _BluetoothApplet` (the client itself is only reached
through calls recorded as effects). The counters are `gint`s that count rows of
the model, far below the range of a `gint`. -/
structure BluetoothApplet where
  pending_requests : GHashTable
  num_adapters_powered : Int
  num_adapters_present : Int
  killswitch_manager : BluetoothKillswitch
  client_model : GtkTreeModel
  default_adapter : Option GtkTreeIter
  agent : Option BluetoothAgent
  deriving DecidableEq, Repr

/-- The applet right after `bluetooth_applet_init` created the table, before any
adapter was counted. -/
def bluetooth_applet_new : BluetoothApplet :=
  { pending_requests := [], num_adapters_powered := 0, num_adapters_present := 0
    killswitch_manager :=
      { has_killswitches := false
        state := BluetoothKillswitchState.BLUETOOTH_KILLSWITCH_STATE_NO_ADAPTER }
    client_model := []
    default_adapter := none
    agent := some { adapter := none } }

/-- The error every rejecting path builds:
`g_error_new (AGENT_ERROR, AGENT_ERROR_REJECT, message)`. -/
def agent_error_reject (message : String) : GError :=
  { code := AgentError.AGENT_ERROR_REJECT, message := message }

/-! ## Replies of the user interface -/

/-- The function `bluetooth_applet_agent_reply_passkey`: `request_key` and `passkey` are C
strings that may be NULL. -/
def bluetooth_applet_agent_reply_passkey (self : BluetoothApplet)
    (request_key : Option String) (passkey : Option String) :
    BluetoothApplet × List Effect :=
  match request_key with
  | none => (self, [])
  | some key =>
      let context := g_hash_table_lookup self.pending_requests key
      let sent :=
        match passkey with
        | some text => Effect.method_return context (DBusReturn.text text)
        | none =>
            Effect.method_return_error context (agent_error_reject "Pairing request rejected")
      ({ self with pending_requests := g_hash_table_remove self.pending_requests key }, [sent])

/-- The function `bluetooth_applet_agent_reply_pincode`: `pincode` is a `gint`, `-1` when the
dialog was dismissed. -/
def bluetooth_applet_agent_reply_pincode (self : BluetoothApplet)
    (request_key : Option String) (pincode : Int) : BluetoothApplet × List Effect :=
  match request_key with
  | none => (self, [])
  | some key =>
      let context := g_hash_table_lookup self.pending_requests key
      let sent :=
        if pincode ≠ -1 then Effect.method_return context (DBusReturn.integer pincode)
        else Effect.method_return_error context (agent_error_reject "Pairing request rejected")
      ({ self with pending_requests := g_hash_table_remove self.pending_requests key }, [sent])

/-- The function `bluetooth_applet_agent_reply_confirm`. -/
def bluetooth_applet_agent_reply_confirm (self : BluetoothApplet)
    (request_key : Option String) (confirm : Bool) : BluetoothApplet × List Effect :=
  match request_key with
  | none => (self, [])
  | some key =>
      let context := g_hash_table_lookup self.pending_requests key
      let sent :=
        if confirm then Effect.method_return context DBusReturn.nothing
        else
          Effect.method_return_error context (agent_error_reject "Confirmation request rejected")
      ({ self with pending_requests := g_hash_table_remove self.pending_requests key }, [sent])

/-- The function `bluetooth_applet_agent_reply_auth`. `trust_answer` is what
`bluetooth_client_set_trusted` returns if it is called; the code drops it. -/
def bluetooth_applet_agent_reply_auth (self : BluetoothApplet)
    (request_key : Option String) (auth trusted : Bool) (trust_answer : Bool) :
    BluetoothApplet × List Effect :=
  match request_key with
  | none => (self, [])
  | some key =>
      let context := g_hash_table_lookup self.pending_requests key
      let sent :=
        if auth then
          (if trusted then [Effect.client_set_trusted key true trust_answer] else [])
            ++ [Effect.method_return context DBusReturn.nothing]
        else
          [Effect.method_return_error context
            (agent_error_reject "Confirmation request rejected")]
      ({ self with pending_requests := g_hash_table_remove self.pending_requests key }, sent)

/-! ## Inbound agent callbacks -/

/-- A `DBusGProxy*` of a device: its object path, and what a `GetProperties`
call on it answers (`none` when the call fails, else the dictionary). -/
structure DBusGProxy where
  path : String
  properties : Option (List (String × String))
  deriving DecidableEq, Repr

/-- Lookup in the dictionary answered by `GetProperties`. -/
def properties_lookup : List (String × String) → String → Option String
  | [], _ => none
  | (k, v) :: rest, key => if k = key then some v else properties_lookup rest key

/-- The function `device_get_name`: the returned name and the `long_name` out-parameter, which
the callers initialise to NULL. -/
def device_get_name (proxy : DBusGProxy) : Option String × Option String :=
  match proxy.properties with
  | none => (none, none)
  | some hash =>
      match properties_lookup hash "Address" with
      | none => (none, none)
      | some address =>
          match properties_lookup hash "Name" with
          | some name => (some name, some ("'" ++ name ++ "' (" ++ address ++ ")"))
          | none => (some address, some ("'" ++ address ++ "'"))

/-- What an agent callback leaves behind: the applet, the calls it made and the
`gboolean` it returns to the agent. -/
structure Handled where
  self : BluetoothApplet
  effects : List Effect
  ret : Bool
  deriving DecidableEq, Repr

/-- The function `pincode_request`. -/
def pincode_request (context : DBusGMethodInvocation) (device : DBusGProxy)
    (self : BluetoothApplet) : Handled :=
  let names := device_get_name device
  let path := device.path
  { self := { self with
      pending_requests := g_hash_table_insert self.pending_requests path (g_object_ref context) }
    effects := [Effect.signal_emit (Signal.SIGNAL_PINCODE_REQUEST path names.1 names.2 true)]
    ret := true }

/-- The function `passkey_request`. -/
def passkey_request (context : DBusGMethodInvocation) (device : DBusGProxy)
    (self : BluetoothApplet) : Handled :=
  let names := device_get_name device
  let path := device.path
  { self := { self with
      pending_requests := g_hash_table_insert self.pending_requests path (g_object_ref context) }
    effects := [Effect.signal_emit (Signal.SIGNAL_PINCODE_REQUEST path names.1 names.2 false)]
    ret := true }

/-- The function `confirm_request`: `pin` is a `guint`. -/
def confirm_request (context : DBusGMethodInvocation) (device : DBusGProxy) (pin : Nat)
    (self : BluetoothApplet) : Handled :=
  let names := device_get_name device
  let path := device.path
  { self := { self with
      pending_requests := g_hash_table_insert self.pending_requests path (g_object_ref context) }
    effects := [Effect.signal_emit (Signal.SIGNAL_CONFIRM_REQUEST path names.1 names.2 pin)]
    ret := true }

/-- The function `authorize_request`. -/
def authorize_request (context : DBusGMethodInvocation) (device : DBusGProxy) (uuid : String)
    (self : BluetoothApplet) : Handled :=
  let names := device_get_name device
  let path := device.path
  { self := { self with
      pending_requests := g_hash_table_insert self.pending_requests path (g_object_ref context) }
    effects := [Effect.signal_emit (Signal.SIGNAL_AUTHORIZE_REQUEST path names.1 names.2 uuid)]
    ret := true }

/-- The function `cancel_request_single`: the callback run on one table entry,
with the value of the entry as its `request_context`. -/
def cancel_request_single (_key : String) (value : Option DBusGMethodInvocation) :
    List Effect :=
  [Effect.method_return_error value (agent_error_reject "Agent callback cancelled")]

/-- The function `cancel_request`: `context` is the invocation of the cancel call itself,
which this function does not touch. -/
def cancel_request (_context : DBusGMethodInvocation) (self : BluetoothApplet) : Handled :=
  { self := { self with pending_requests := g_hash_table_remove_all self.pending_requests }
    effects := g_hash_table_foreach self.pending_requests cancel_request_single
      ++ [Effect.signal_emit Signal.SIGNAL_CANCEL_REQUEST]
    ret := true }

/-! ## Signal handlers of the user interface -/

/-- A handler the user interface connected to the agent signals. GObject runs it
inside `g_signal_emit`, on the applet as it is at that moment, and it may call
the public functions of the applet, the replies among them. -/
abbrev SignalObserver := Signal → BluetoothApplet → BluetoothApplet × List Effect

/-- The call `g_signal_emit (self, signals[...], 0, ...)`: the emission, then
what the connected handler does before the call returns. -/
def g_signal_emit (observer : SignalObserver) (self : BluetoothApplet) (signal : Signal) :
    BluetoothApplet × List Effect :=
  ((observer signal self).1, Effect.signal_emit signal :: (observer signal self).2)

/-- The function `pincode_request`, with the handler connected to the signal run
inside the emission. -/
def pincode_request_observed (observer : SignalObserver) (context : DBusGMethodInvocation)
    (device : DBusGProxy) (self : BluetoothApplet) : Handled :=
  let names := device_get_name device
  let path := device.path
  let registered : BluetoothApplet := { self with
    pending_requests := g_hash_table_insert self.pending_requests path (g_object_ref context) }
  let emitted := g_signal_emit observer registered
    (Signal.SIGNAL_PINCODE_REQUEST path names.1 names.2 true)
  { self := emitted.1, effects := emitted.2, ret := true }

/-- The function `passkey_request`, with the handler connected to the signal run
inside the emission. -/
def passkey_request_observed (observer : SignalObserver) (context : DBusGMethodInvocation)
    (device : DBusGProxy) (self : BluetoothApplet) : Handled :=
  let names := device_get_name device
  let path := device.path
  let registered : BluetoothApplet := { self with
    pending_requests := g_hash_table_insert self.pending_requests path (g_object_ref context) }
  let emitted := g_signal_emit observer registered
    (Signal.SIGNAL_PINCODE_REQUEST path names.1 names.2 false)
  { self := emitted.1, effects := emitted.2, ret := true }

/-- The function `confirm_request`, with the handler connected to the signal run
inside the emission. -/
def confirm_request_observed (observer : SignalObserver) (context : DBusGMethodInvocation)
    (device : DBusGProxy) (pin : Nat) (self : BluetoothApplet) : Handled :=
  let names := device_get_name device
  let path := device.path
  let registered : BluetoothApplet := { self with
    pending_requests := g_hash_table_insert self.pending_requests path (g_object_ref context) }
  let emitted := g_signal_emit observer registered
    (Signal.SIGNAL_CONFIRM_REQUEST path names.1 names.2 pin)
  { self := emitted.1, effects := emitted.2, ret := true }

/-- The function `authorize_request`, with the handler connected to the signal
run inside the emission. -/
def authorize_request_observed (observer : SignalObserver) (context : DBusGMethodInvocation)
    (device : DBusGProxy) (uuid : String) (self : BluetoothApplet) : Handled :=
  let names := device_get_name device
  let path := device.path
  let registered : BluetoothApplet := { self with
    pending_requests := g_hash_table_insert self.pending_requests path (g_object_ref context) }
  let emitted := g_signal_emit observer registered
    (Signal.SIGNAL_AUTHORIZE_REQUEST path names.1 names.2 uuid)
  { self := emitted.1, effects := emitted.2, ret := true }

/-! ## The adapter and device mirror -/

/-- The columns of the top-level row an iterator points at (`gtk_tree_model_get`);
nothing when the iterator points at no row. -/
def gtk_tree_model_get (model : GtkTreeModel) (iter : GtkTreeIter) : Option AdapterRow :=
  model.get? iter

/-- The child rows of the row an iterator points at, in model order
(`gtk_tree_model_iter_children` followed by `gtk_tree_model_iter_next`). -/
def gtk_tree_model_iter_children (model : GtkTreeModel) (parent : GtkTreeIter) :
    List DeviceRow :=
  match gtk_tree_model_get model parent with
  | some row => row.devices
  | none => []

/-- The `while (cont)` loop of `find_default_adapter` over the top-level rows
from position `iter` on: the default adapter found, the adapters present and
the adapters powered. -/
def find_default_adapter_loop :
    List AdapterRow → GtkTreeIter → Option GtkTreeIter × Int × Int → Option GtkTreeIter × Int × Int
  | [], _, found => found
  | row :: rest, iter, (default_adapter, present, powered) =>
      find_default_adapter_loop rest (iter + 1)
        (if row.is_default && row.powered then some iter else default_adapter,
          present + 1,
          if row.powered then powered + 1 else powered)

/-- The function `find_default_adapter`. -/
def find_default_adapter (self : BluetoothApplet) : BluetoothApplet × List Effect :=
  let unregistered : List Effect :=
    match self.agent with
    | some _ => [Effect.agent_unregister]
    | none => []
  let found := find_default_adapter_loop self.client_model 0 (none, 0, 0)
  match found.1 with
  | some iter =>
      let adapter := (gtk_tree_model_get self.client_model iter).map AdapterRow.proxy
      ({ self with
          default_adapter := some iter
          agent := some { adapter := adapter }
          num_adapters_present := found.2.1
          num_adapters_powered := found.2.2 },
        unregistered ++ [Effect.agent_register adapter])
  | none =>
      ({ self with
          default_adapter := none
          agent := none
          num_adapters_present := found.2.1
          num_adapters_powered := found.2.2 },
        unregistered)

/-- The function `bluetooth_applet_get_discoverable`. -/
def bluetooth_applet_get_discoverable (self : BluetoothApplet) : Bool :=
  match self.default_adapter with
  | none => false
  | some iter =>
      match gtk_tree_model_get self.client_model iter with
      | some row => row.discoverable
      | none => false

/-- The function `device_added_or_changed`, the handler of the `row-inserted` and
`row-changed` signals of the model; `self.client_model` is the model after the
change. -/
def device_added_or_changed (self : BluetoothApplet) : BluetoothApplet × List Effect :=
  let prev_visibility := bluetooth_applet_get_discoverable self
  let prev_num_adapters_powered := self.num_adapters_powered
  let prev_num_adapters_present := self.num_adapters_present
  let found := find_default_adapter self
  let visibility : List Effect :=
    if bluetooth_applet_get_discoverable found.1 ≠ prev_visibility then
      [Effect.notify Property.PROP_DISCOVERABLE]
    else []
  let counters : List Effect :=
    if prev_num_adapters_powered ≠ found.1.num_adapters_powered
        ∨ prev_num_adapters_present ≠ found.1.num_adapters_present then
      [Effect.notify Property.PROP_KILLSWITCH_STATE, Effect.notify Property.PROP_FULL_MENU]
    else []
  (found.1,
    found.2 ++ visibility ++ counters ++ [Effect.signal_emit Signal.SIGNAL_DEVICES_CHANGED])

/-- The function `device_removed`, the handler of the `row-deleted` signal. -/
def device_removed (self : BluetoothApplet) : BluetoothApplet × List Effect :=
  device_added_or_changed self

/-- The function `bluetooth_applet_get_killswitch_state`. -/
def bluetooth_applet_get_killswitch_state (self : BluetoothApplet) : BluetoothKillswitchState :=
  if self.killswitch_manager.has_killswitches then self.killswitch_manager.state
  else BluetoothKillswitchState.BLUETOOTH_KILLSWITCH_STATE_NO_ADAPTER

/-- The function `bluetooth_applet_get_show_full_menu`. -/
def bluetooth_applet_get_show_full_menu (self : BluetoothApplet) : Bool :=
  if self.num_adapters_present = 0 then false
  else
    decide (self.num_adapters_present = self.num_adapters_powered)
      && decide (bluetooth_applet_get_killswitch_state self
          = BluetoothKillswitchState.BLUETOOTH_KILLSWITCH_STATE_UNBLOCKED)

/-- The capability bits of a `BluetoothSimpleDevice`, one flag per bit of the
mask (`BLUETOOTH_CAPABILITIES_OBEX_PUSH`, `BLUETOOTH_CAPABILITIES_OBEX_FILE_TRANSFER`). -/
structure BluetoothCapabilities where
  obex_push : Bool
  obex_file_transfer : Bool
  deriving DecidableEq, Repr

/-- The boxed type `BluetoothSimpleDevice`. -/
structure BluetoothSimpleDevice where
  bdaddr : String
  device_path : String
  alias_name : String
  connected : Bool
  can_connect : Bool
  capabilities : BluetoothCapabilities
  type : Nat
  deriving DecidableEq, Repr

/-- The function `device_has_uuid`. -/
def device_has_uuid (uuids : Option (List String)) (uuid : String) : Bool :=
  match uuids with
  | none => false
  | some list => list.any (fun candidate => decide (uuid = candidate))

/-- The `for` loop over the service states in `bluetooth_applet_get_devices`: it
stops at the first state that is `CONNECTED` or `PLAYING`. -/
def one_service_connected : List BluetoothStatus → Bool
  | [] => false
  | val :: rest =>
      if val = BluetoothStatus.BLUETOOTH_STATUS_CONNECTED
          ∨ val = BluetoothStatus.BLUETOOTH_STATUS_PLAYING then true
      else one_service_connected rest

/-- The body of the `while` loop of `bluetooth_applet_get_devices`: the device
built from one row. -/
def bluetooth_simple_device_of_row (row : DeviceRow) : BluetoothSimpleDevice :=
  { bdaddr := row.address
    device_path := row.proxy
    alias_name := row.alias_name
    connected :=
      match row.services with
      | some services => one_service_connected (services.map Prod.snd)
      | none => false
    can_connect :=
      match row.services with
      | some _ => true
      | none => false
    capabilities :=
      { obex_push := device_has_uuid row.uuids "OBEXObjectPush"
        obex_file_transfer := device_has_uuid row.uuids "OBEXFileTransfer" }
    type := row.type }

/-- The function `bluetooth_applet_get_devices`: each device is prepended to the
result, which is reversed at the end. -/
def bluetooth_applet_get_devices (self : BluetoothApplet) : List BluetoothSimpleDevice :=
  match self.default_adapter with
  | none => []
  | some iter =>
      ((gtk_tree_model_iter_children self.client_model iter).foldl
        (fun result row => bluetooth_simple_device_of_row row :: result) []).reverse

/-! ## The applet driven by a sequence of events -/

/-- One event of the main loop: an agent callback invoked by the daemon, or a
reply function called by the user interface, with its arguments. -/
inductive Op where
  | inbound_pincode (context : DBusGMethodInvocation) (device : DBusGProxy)
  | inbound_passkey (context : DBusGMethodInvocation) (device : DBusGProxy)
  | inbound_confirm (context : DBusGMethodInvocation) (device : DBusGProxy) (pin : Nat)
  | inbound_authorize (context : DBusGMethodInvocation) (device : DBusGProxy) (uuid : String)
  | inbound_cancel (context : DBusGMethodInvocation)
  | reply_passkey (request_key : Option String) (passkey : Option String)
  | reply_pincode (request_key : Option String) (pincode : Int)
  | reply_confirm (request_key : Option String) (confirm : Bool)
  | reply_auth (request_key : Option String) (auth trusted trust_answer : Bool)
  deriving DecidableEq, Repr

/-- Runs the function the event stands for. -/
def Op.apply (self : BluetoothApplet) : Op → BluetoothApplet × List Effect
  | Op.inbound_pincode context device =>
      ((pincode_request context device self).self, (pincode_request context device self).effects)
  | Op.inbound_passkey context device =>
      ((passkey_request context device self).self, (passkey_request context device self).effects)
  | Op.inbound_confirm context device pin =>
      ((confirm_request context device pin self).self,
        (confirm_request context device pin self).effects)
  | Op.inbound_authorize context device uuid =>
      ((authorize_request context device uuid self).self,
        (authorize_request context device uuid self).effects)
  | Op.inbound_cancel context =>
      ((cancel_request context self).self, (cancel_request context self).effects)
  | Op.reply_passkey request_key passkey =>
      bluetooth_applet_agent_reply_passkey self request_key passkey
  | Op.reply_pincode request_key pincode =>
      bluetooth_applet_agent_reply_pincode self request_key pincode
  | Op.reply_confirm request_key confirm =>
      bluetooth_applet_agent_reply_confirm self request_key confirm
  | Op.reply_auth request_key auth trusted trust_answer =>
      bluetooth_applet_agent_reply_auth self request_key auth trusted trust_answer

/-- Runs the events one after the other; the calls they make are concatenated
in order. -/
def run (self : BluetoothApplet) : List Op → BluetoothApplet × List Effect
  | [] => (self, [])
  | op :: rest => ((run (op.apply self).1 rest).1, (op.apply self).2 ++ (run (op.apply self).1 rest).2)

/-- The call context and device path of an inbound request (none for a cancel
and for replies). -/
def Op.request : Op → Option (DBusGMethodInvocation × String)
  | Op.inbound_pincode context device => some (context, device.path)
  | Op.inbound_passkey context device => some (context, device.path)
  | Op.inbound_confirm context device _ => some (context, device.path)
  | Op.inbound_authorize context device _ => some (context, device.path)
  | _ => none

/-- The token of a reply that passes the `request_key != NULL` guard. -/
def Op.reply_key : Op → Option String
  | Op.reply_passkey request_key _ => request_key
  | Op.reply_pincode request_key _ => request_key
  | Op.reply_confirm request_key _ => request_key
  | Op.reply_auth request_key _ _ _ => request_key
  | _ => none

/-- The pointer a completion call was issued on (`some none` is a completion
issued on NULL); `none` for calls that complete nothing. -/
def Effect.completed : Effect → Option (Option DBusGMethodInvocation)
  | Effect.method_return context _ => some context
  | Effect.method_return_error context _ => some context
  | _ => none

/-- The pointers the completion calls of a trace were issued on, in order. -/
def completed_contexts (trace : List Effect) : List (Option DBusGMethodInvocation) :=
  trace.filterMap Effect.completed

/-- How many times the trace completes the call context `c`. -/
def completions (c : DBusGMethodInvocation) (trace : List Effect) : Nat :=
  (completed_contexts trace).count (some c)

/-- The signals a trace emits, in order. -/
def emitted (trace : List Effect) : List Signal :=
  trace.filterMap (fun effect =>
    match effect with
    | Effect.signal_emit signal => some signal
    | _ => none)

/-- The devices the trace asks the Bluetooth client to mark, with the value
asked for, in order. -/
def trust_requests (trace : List Effect) : List (String × Bool) :=
  trace.filterMap (fun effect =>
    match effect with
    | Effect.client_set_trusted device trusted _ => some (device, trusted)
    | _ => none)

theorem g_hash_table_remove_cons (k : String) (v : Option DBusGMethodInvocation) (rest : GHashTable)
    (key : String) :
    g_hash_table_remove ((k, v) :: rest) key
      = if k = key then g_hash_table_remove rest key else (k, v) :: g_hash_table_remove rest key := by
  by_cases hk : k = key <;> simp [g_hash_table_remove, List.filter_cons, hk]

theorem g_hash_table_lookup_insert_self (table : GHashTable) (key : String)
    (value : Option DBusGMethodInvocation) :
    g_hash_table_lookup (g_hash_table_insert table key value) key = value := by
  induction table with
  | nil => simp [g_hash_table_insert, g_hash_table_lookup]
  | cons entry rest ih =>
    obtain ⟨k, v⟩ := entry
    by_cases hk : k = key
    · simp [g_hash_table_insert, g_hash_table_lookup, hk]
    · simp [g_hash_table_insert, g_hash_table_lookup, hk, ih]

theorem g_hash_table_lookup_insert_ne (table : GHashTable) (key k : String)
    (value : Option DBusGMethodInvocation) (hne : k ≠ key) :
    g_hash_table_lookup (g_hash_table_insert table key value) k
      = g_hash_table_lookup table k := by
  have hne2 : ¬ key = k := fun h => hne h.symm
  induction table with
  | nil => simp [g_hash_table_insert, g_hash_table_lookup, hne2]
  | cons entry rest ih =>
    obtain ⟨k0, v⟩ := entry
    by_cases hk : k0 = key
    · subst hk
      simp [g_hash_table_insert, g_hash_table_lookup, hne2]
    · by_cases hk2 : k0 = k
      · subst hk2
        simp [g_hash_table_insert, g_hash_table_lookup, hk]
      · simp [g_hash_table_insert, g_hash_table_lookup, hk, hk2, ih]

theorem mem_g_hash_table_remove (table : GHashTable) (key : String)
    (entry : String × Option DBusGMethodInvocation) :
    entry ∈ g_hash_table_remove table key ↔ entry ∈ table ∧ entry.1 ≠ key := by
  simp [g_hash_table_remove]

theorem g_hash_table_lookup_remove_self (table : GHashTable) (key : String) :
    g_hash_table_lookup (g_hash_table_remove table key) key = none := by
  induction table with
  | nil => simp [g_hash_table_remove, g_hash_table_lookup]
  | cons entry rest ih =>
    obtain ⟨k, v⟩ := entry
    rw [g_hash_table_remove_cons]
    by_cases hk : k = key
    · simp [hk, ih]
    · simp [hk, g_hash_table_lookup, ih]

theorem g_hash_table_lookup_remove_ne (table : GHashTable) (key k : String) (hne : k ≠ key) :
    g_hash_table_lookup (g_hash_table_remove table key) k = g_hash_table_lookup table k := by
  have hne2 : ¬ key = k := fun h => hne h.symm
  induction table with
  | nil => simp [g_hash_table_remove, g_hash_table_lookup]
  | cons entry rest ih =>
    obtain ⟨k0, v⟩ := entry
    rw [g_hash_table_remove_cons]
    by_cases hk : k0 = key
    · subst hk
      simp [g_hash_table_lookup, hne2, ih]
    · by_cases hk2 : k0 = k
      · subst hk2
        simp [g_hash_table_lookup, hk]
      · simp [g_hash_table_lookup, hk, hk2, ih]

theorem g_hash_table_contains_insert_self (table : GHashTable) (key : String)
    (value : Option DBusGMethodInvocation) :
    g_hash_table_contains (g_hash_table_insert table key value) key = true := by
  induction table with
  | nil => simp [g_hash_table_insert, g_hash_table_contains]
  | cons entry rest ih =>
    obtain ⟨k, v⟩ := entry
    by_cases hk : k = key
    · simp [g_hash_table_insert, g_hash_table_contains, hk]
    · simp [g_hash_table_insert, g_hash_table_contains, hk, ih]

theorem g_hash_table_contains_remove_self (table : GHashTable) (key : String) :
    g_hash_table_contains (g_hash_table_remove table key) key = false := by
  induction table with
  | nil => simp [g_hash_table_remove, g_hash_table_contains]
  | cons entry rest ih =>
    obtain ⟨k, v⟩ := entry
    rw [g_hash_table_remove_cons]
    by_cases hk : k = key
    · simp [hk, ih]
    · simp [hk, g_hash_table_contains, ih]

theorem g_hash_table_insert_length_of_contains (table : GHashTable) (key : String)
    (value : Option DBusGMethodInvocation)
    (hold : g_hash_table_contains table key = true) :
    (g_hash_table_insert table key value).length = table.length := by
  induction table with
  | nil => simp [g_hash_table_contains] at hold
  | cons entry rest ih =>
    obtain ⟨k, v⟩ := entry
    by_cases hk : k = key
    · simp [g_hash_table_insert, hk]
    · simp only [g_hash_table_contains, hk, if_false] at hold
      simp [g_hash_table_insert, hk, ih hold]

theorem apply_reply (self : BluetoothApplet) (op : Op) (t : String)
    (hkey : op.reply_key = some t) :
    (op.apply self).1
        = { self with pending_requests := g_hash_table_remove self.pending_requests t }
      ∧ completed_contexts (op.apply self).2 = [g_hash_table_lookup self.pending_requests t] := by
  cases op <;> simp only [Op.reply_key, reduceCtorEq] at hkey
  case reply_passkey request_key passkey =>
    subst hkey
    cases passkey <;>
      simp [Op.apply, bluetooth_applet_agent_reply_passkey, completed_contexts, Effect.completed]
  case reply_pincode request_key pincode =>
    subst hkey
    by_cases hp : pincode = -1 <;>
      simp [Op.apply, bluetooth_applet_agent_reply_pincode, completed_contexts,
        Effect.completed, hp]
  case reply_confirm request_key confirm =>
    subst hkey
    cases confirm <;>
      simp [Op.apply, bluetooth_applet_agent_reply_confirm, completed_contexts, Effect.completed]
  case reply_auth request_key auth trusted trust_answer =>
    subst hkey
    cases auth <;> cases trusted <;>
      simp [Op.apply, bluetooth_applet_agent_reply_auth, completed_contexts, Effect.completed]

theorem apply_request (self : BluetoothApplet) (op : Op) (c : DBusGMethodInvocation)
    (path : String) (hreq : op.request = some (c, path)) :
    (op.apply self).1
        = { self with pending_requests := g_hash_table_insert self.pending_requests path (g_object_ref c) }
      ∧ completed_contexts (op.apply self).2 = [] := by
  cases op <;>
    simp only [Op.request, reduceCtorEq, Option.some.injEq, Prod.mk.injEq] at hreq
  all_goals
    obtain ⟨rfl, rfl⟩ := hreq
    simp [Op.apply, pincode_request, passkey_request, confirm_request, authorize_request,
      completed_contexts, Effect.completed]

theorem g_hash_table_foreach_cancel (table : GHashTable) :
    g_hash_table_foreach table cancel_request_single
      = table.map (fun entry =>
          Effect.method_return_error entry.2
            (agent_error_reject "Agent callback cancelled")) := by
  induction table with
  | nil => rfl
  | cons entry rest ih =>
    simp only [g_hash_table_foreach, cancel_request_single] at ih
    simp [g_hash_table_foreach, cancel_request_single, ih]

theorem completed_contexts_cancel (self : BluetoothApplet) (context : DBusGMethodInvocation) :
    completed_contexts (cancel_request context self).effects
      = self.pending_requests.map Prod.snd := by
  simp only [cancel_request, g_hash_table_foreach_cancel, completed_contexts]
  induction self.pending_requests with
  | nil => simp [Effect.completed]
  | cons entry rest ih => simpa [Effect.completed] using ih

theorem completed_contexts_append (a b : List Effect) :
    completed_contexts (a ++ b) = completed_contexts a ++ completed_contexts b := by
  simp [completed_contexts, List.filterMap_append]

theorem apply_shape (self : BluetoothApplet) (op : Op) :
    (∃ c path, op.request = some (c, path) ∧ op.reply_key = none
        ∧ (op.apply self).1.pending_requests
            = g_hash_table_insert self.pending_requests path (g_object_ref c)
        ∧ completed_contexts (op.apply self).2 = [])
      ∨ (op.request = none ∧ ∃ t, op.reply_key = some t
          ∧ (op.apply self).1.pending_requests = g_hash_table_remove self.pending_requests t
          ∧ completed_contexts (op.apply self).2
              = [g_hash_table_lookup self.pending_requests t])
      ∨ (op.request = none ∧ op.reply_key = none
          ∧ (op.apply self).1.pending_requests = self.pending_requests
          ∧ completed_contexts (op.apply self).2 = [])
      ∨ (op.request = none ∧ op.reply_key = none
          ∧ (op.apply self).1.pending_requests = []
          ∧ completed_contexts (op.apply self).2 = self.pending_requests.map Prod.snd) := by
  have hrequest : ∀ (o : Op) (c : DBusGMethodInvocation) (path : String),
      o.request = some (c, path) → o.reply_key = none →
      ∃ c path, o.request = some (c, path) ∧ o.reply_key = none
        ∧ (o.apply self).1.pending_requests
            = g_hash_table_insert self.pending_requests path (g_object_ref c)
        ∧ completed_contexts (o.apply self).2 = [] := by
    intro o c path hreq hkey
    obtain ⟨h1, h2⟩ := apply_request self o c path hreq
    exact ⟨c, path, hreq, hkey, by rw [h1], h2⟩
  have hreply : ∀ (o : Op) (key : Option String), o.request = none → o.reply_key = key →
      (key = none → (o.apply self).1 = self ∧ (o.apply self).2 = []) →
      (o.request = none ∧ ∃ t, o.reply_key = some t
          ∧ (o.apply self).1.pending_requests = g_hash_table_remove self.pending_requests t
          ∧ completed_contexts (o.apply self).2
              = [g_hash_table_lookup self.pending_requests t])
      ∨ (o.request = none ∧ o.reply_key = none
          ∧ (o.apply self).1.pending_requests = self.pending_requests
          ∧ completed_contexts (o.apply self).2 = [])
      ∨ (o.request = none ∧ o.reply_key = none
          ∧ (o.apply self).1.pending_requests = []
          ∧ completed_contexts (o.apply self).2 = self.pending_requests.map Prod.snd) := by
    intro o key hreq hkey hnull
    cases key with
    | none =>
      obtain ⟨h1, h2⟩ := hnull rfl
      exact Or.inr (Or.inl ⟨hreq, hkey, by rw [h1], by rw [h2]; rfl⟩)
    | some t =>
      obtain ⟨h1, h2⟩ := apply_reply self o t hkey
      exact Or.inl ⟨hreq, t, hkey, by rw [h1], h2⟩
  cases op with
  | inbound_pincode context device => exact Or.inl (hrequest _ context device.path rfl rfl)
  | inbound_passkey context device => exact Or.inl (hrequest _ context device.path rfl rfl)
  | inbound_confirm context device pin => exact Or.inl (hrequest _ context device.path rfl rfl)
  | inbound_authorize context device uuid =>
    exact Or.inl (hrequest _ context device.path rfl rfl)
  | inbound_cancel context =>
    exact Or.inr (Or.inr (Or.inr ⟨rfl, rfl, rfl, completed_contexts_cancel self context⟩))
  | reply_passkey request_key passkey =>
    exact Or.inr (hreply _ request_key rfl rfl (fun h => by subst h; exact ⟨rfl, rfl⟩))
  | reply_pincode request_key pincode =>
    exact Or.inr (hreply _ request_key rfl rfl (fun h => by subst h; exact ⟨rfl, rfl⟩))
  | reply_confirm request_key confirm =>
    exact Or.inr (hreply _ request_key rfl rfl (fun h => by subst h; exact ⟨rfl, rfl⟩))
  | reply_auth request_key auth trusted trust_answer =>
    exact Or.inr (hreply _ request_key rfl rfl (fun h => by subst h; exact ⟨rfl, rfl⟩))

theorem emitted_append (a b : List Effect) : emitted (a ++ b) = emitted a ++ emitted b := by
  simp [emitted, List.filterMap_append]

theorem emitted_foreach_cancel (table : GHashTable) :
    emitted (g_hash_table_foreach table cancel_request_single) = [] := by
  rw [g_hash_table_foreach_cancel]
  induction table with
  | nil => rfl
  | cons entry rest ih => simp [emitted]

theorem emitted_apply_eq (op : Op) (self other : BluetoothApplet) :
    emitted (op.apply self).2 = emitted (op.apply other).2 := by
  cases op with
  | inbound_pincode context device => rfl
  | inbound_passkey context device => rfl
  | inbound_confirm context device pin => rfl
  | inbound_authorize context device uuid => rfl
  | inbound_cancel context =>
    simp [Op.apply, cancel_request, emitted_append, emitted_foreach_cancel]
  | reply_passkey request_key passkey =>
    cases request_key <;> cases passkey <;>
      simp [Op.apply, bluetooth_applet_agent_reply_passkey, emitted]
  | reply_pincode request_key pincode =>
    cases request_key
    · simp [Op.apply, bluetooth_applet_agent_reply_pincode, emitted]
    · by_cases hp : pincode = -1 <;>
        simp [Op.apply, bluetooth_applet_agent_reply_pincode, emitted, hp]
  | reply_confirm request_key confirm =>
    cases request_key <;> cases confirm <;>
      simp [Op.apply, bluetooth_applet_agent_reply_confirm, emitted]
  | reply_auth request_key auth trusted trust_answer =>
    cases request_key <;> cases auth <;> cases trusted <;>
      simp [Op.apply, bluetooth_applet_agent_reply_auth, emitted]

theorem emitted_run (ops : List Op) :
    ∀ (start other : BluetoothApplet),
      emitted (run start ops).2 = (ops.map (fun op => emitted (op.apply other).2)).flatten := by
  induction ops with
  | nil =>
    intro start other
    rfl
  | cons op rest ih =>
    intro start other
    have hrun : run start (op :: rest)
        = ((run (op.apply start).1 rest).1,
            (op.apply start).2 ++ (run (op.apply start).1 rest).2) := rfl
    rw [hrun]
    simp only [emitted_append, List.map_cons, List.flatten_cons]
    rw [ih (op.apply start).1 other, emitted_apply_eq op start other]

theorem find_default_adapter_loop_counts (rows : List AdapterRow) :
    ∀ (iter : GtkTreeIter) (found : Option GtkTreeIter × Int × Int),
      (find_default_adapter_loop rows iter found).2.1 = found.2.1 + rows.length
        ∧ (find_default_adapter_loop rows iter found).2.2
            = found.2.2 + rows.countP (fun row => row.powered) := by
  induction rows with
  | nil =>
    intro iter found
    simp [find_default_adapter_loop]
  | cons row rest ih =>
    intro iter found
    obtain ⟨default_adapter, present, powered⟩ := found
    simp only [find_default_adapter_loop]
    obtain ⟨h1, h2⟩ := ih (iter + 1)
      (if row.is_default && row.powered then some iter else default_adapter, present + 1,
        if row.powered then powered + 1 else powered)
    rw [h1, h2]
    constructor
    · simp only [List.length_cons]
      push_cast
      ring
    · cases hp : row.powered <;> simp [List.countP_cons, hp]
      ring

theorem find_default_adapter_fields (self : BluetoothApplet) :
    (find_default_adapter self).1.pending_requests = self.pending_requests
      ∧ (find_default_adapter self).1.killswitch_manager = self.killswitch_manager
      ∧ (find_default_adapter self).1.num_adapters_present = self.client_model.length
      ∧ (find_default_adapter self).1.num_adapters_powered
          = self.client_model.countP (fun row => row.powered)
      ∧ completed_contexts (find_default_adapter self).2 = [] := by
  obtain ⟨h1, h2⟩ := find_default_adapter_loop_counts self.client_model 0 (none, 0, 0)
  simp only [Int.zero_add] at h1 h2
  simp only [find_default_adapter]
  cases hfound : (find_default_adapter_loop self.client_model 0 (none, 0, 0)).1 <;>
    cases hagent : self.agent <;>
    simp [completed_contexts, Effect.completed] <;>
    exact ⟨h1, h2⟩

theorem one_service_connected_iff (states : List BluetoothStatus) :
    one_service_connected states = true
      ↔ ∃ val ∈ states, val = BluetoothStatus.BLUETOOTH_STATUS_CONNECTED
          ∨ val = BluetoothStatus.BLUETOOTH_STATUS_PLAYING := by
  induction states with
  | nil => simp [one_service_connected]
  | cons val rest ih =>
    by_cases hval : val = BluetoothStatus.BLUETOOTH_STATUS_CONNECTED
        ∨ val = BluetoothStatus.BLUETOOTH_STATUS_PLAYING
    · simp only [one_service_connected, hval, if_true, true_iff]
      exact ⟨val, List.mem_cons_self _ _, hval⟩
    · simp only [one_service_connected, hval, if_false, ih, List.mem_cons, exists_eq_or_imp,
        false_or]

theorem foldl_prepend_reverse {α β : Type} (f : α → β) (rows : List α) :
    ∀ (result : List β),
      (rows.foldl (fun result row => f row :: result) result).reverse
        = result.reverse ++ rows.map f := by
  induction rows with
  | nil =>
    intro result
    simp
  | cons row rest ih =>
    intro result
    simp [List.foldl_cons, ih]

theorem mem_g_hash_table_insert_of_ne (table : GHashTable) (key : String)
    (value : Option DBusGMethodInvocation) (entry : String × Option DBusGMethodInvocation)
    (hne : entry.1 ≠ key) :
    entry ∈ g_hash_table_insert table key value ↔ entry ∈ table := by
  induction table with
  | nil =>
    simp only [g_hash_table_insert, List.mem_singleton, List.not_mem_nil, iff_false]
    intro h
    exact hne (by rw [h])
  | cons head rest ih =>
    obtain ⟨k, v⟩ := head
    by_cases hk : k = key
    · have h1 : entry ≠ (k, value) := fun h => hne (by rw [h, hk])
      have h2 : entry ≠ (k, v) := fun h => hne (by rw [h, hk])
      simp [g_hash_table_insert, hk, h1, h2, hk ▸ h1, hk ▸ h2]
    · simp [g_hash_table_insert, hk, ih]

/-! ## The request table as a registry -/

/-- C1: in the code, registering a call context and then taking its token does
not yield the call context. Each of the four handlers stores
`g_object_ref (context)`, which is NULL for a method invocation of dbus-glib, so
after a request with call context `7` for `/dev/1` the table maps `/dev/1` to
NULL, the lookup of the reply yields NULL and the reply completes NULL. -/
theorem registered_context_is_lost :
    (pincode_request 7 ⟨"/dev/1", none⟩ bluetooth_applet_new).self.pending_requests
        = [("/dev/1", none)]
      ∧ (passkey_request 7 ⟨"/dev/1", none⟩ bluetooth_applet_new).self.pending_requests
        = [("/dev/1", none)]
      ∧ (confirm_request 7 ⟨"/dev/1", none⟩ 123456 bluetooth_applet_new).self.pending_requests
        = [("/dev/1", none)]
      ∧ (authorize_request 7 ⟨"/dev/1", none⟩ "1105" bluetooth_applet_new).self.pending_requests
        = [("/dev/1", none)]
      ∧ g_hash_table_lookup
          (pincode_request 7 ⟨"/dev/1", none⟩ bluetooth_applet_new).self.pending_requests
          "/dev/1" = none
      ∧ bluetooth_applet_agent_reply_pincode
          (pincode_request 7 ⟨"/dev/1", none⟩ bluetooth_applet_new).self (some "/dev/1") 1234
        = (bluetooth_applet_new, [Effect.method_return none (DBusReturn.integer 1234)]) := by
  decide

/-- C2: a reply of any of the four kinds given for token `t` issues its one
completion on the call context stored under `t` and on no other; afterwards the
table holds exactly the entries it held before under keys other than `t`, each
with the call context it had, and nothing under `t`. -/
theorem reply_touches_only_its_token (self : BluetoothApplet) (reply : Op) (t : String)
    (hreply : reply.reply_key = some t) :
    completed_contexts (reply.apply self).2 = [g_hash_table_lookup self.pending_requests t]
      ∧ (∀ entry, entry ∈ (reply.apply self).1.pending_requests
            ↔ entry ∈ self.pending_requests ∧ entry.1 ≠ t)
      ∧ (∀ k, k ≠ t → g_hash_table_lookup (reply.apply self).1.pending_requests k
            = g_hash_table_lookup self.pending_requests k)
      ∧ g_hash_table_lookup (reply.apply self).1.pending_requests t = none := by
  obtain ⟨hstate, hdone⟩ := apply_reply self reply t hreply
  refine ⟨hdone, ?_, ?_, ?_⟩
  · intro entry
    rw [hstate]
    exact mem_g_hash_table_remove _ _ _
  · intro k hk
    rw [hstate]
    exact g_hash_table_lookup_remove_ne _ _ _ hk
  · rw [hstate]
    exact g_hash_table_lookup_remove_self _ _

theorem reply_touches_only_its_token_witness :
    (Op.reply_auth (some "/dev/2") true false false).reply_key = some "/dev/2"
      ∧ (run bluetooth_applet_new
          [Op.inbound_pincode 1 ⟨"/dev/1", none⟩, Op.inbound_confirm 2 ⟨"/dev/2", none⟩ 123456,
            Op.inbound_authorize 3 ⟨"/dev/3", none⟩ "1105"]).1.pending_requests
        = [("/dev/1", none), ("/dev/2", none), ("/dev/3", none)]
      ∧ completed_contexts
          ((Op.reply_auth (some "/dev/2") true false false).apply
            (run bluetooth_applet_new
              [Op.inbound_pincode 1 ⟨"/dev/1", none⟩,
                Op.inbound_confirm 2 ⟨"/dev/2", none⟩ 123456,
                Op.inbound_authorize 3 ⟨"/dev/3", none⟩ "1105"]).1).2 = [none]
      ∧ ((Op.reply_auth (some "/dev/2") true false false).apply
            (run bluetooth_applet_new
              [Op.inbound_pincode 1 ⟨"/dev/1", none⟩,
                Op.inbound_confirm 2 ⟨"/dev/2", none⟩ 123456,
                Op.inbound_authorize 3 ⟨"/dev/3", none⟩ "1105"]).1).1.pending_requests
          = [("/dev/1", none), ("/dev/3", none)]
      ∧ ((Op.reply_auth (some "/dev/2") true false false).apply
            { bluetooth_applet_new with
              pending_requests :=
                [("/dev/1", some 1), ("/dev/2", some 2), ("/dev/3", some 3)] })
          = ({ bluetooth_applet_new with
                pending_requests := [("/dev/1", some 1), ("/dev/3", some 3)] },
              [Effect.method_return (some 2) DBusReturn.nothing]) :=
  ⟨rfl, by decide,
    (reply_touches_only_its_token
      (run bluetooth_applet_new
        [Op.inbound_pincode 1 ⟨"/dev/1", none⟩, Op.inbound_confirm 2 ⟨"/dev/2", none⟩ 123456,
          Op.inbound_authorize 3 ⟨"/dev/3", none⟩ "1105"]).1
      (Op.reply_auth (some "/dev/2") true false false) "/dev/2" rfl).1,
    by decide, by decide⟩

/-- C3: at a token that is not in the table the replies are not silent. After a
confirm request for `/dev/1` was cancelled by the daemon, each of the four
replies for `/dev/1` still issues a completion call, on the NULL pointer the
lookup returned; only the table is left as it was. -/
theorem reply_after_cancel_completes_null :
    (run bluetooth_applet_new
        [Op.inbound_confirm 7 ⟨"/dev/1", none⟩ 123456, Op.inbound_cancel 8]).1
      = bluetooth_applet_new
    ∧ bluetooth_applet_agent_reply_confirm bluetooth_applet_new (some "/dev/1") true
      = (bluetooth_applet_new, [Effect.method_return none DBusReturn.nothing])
    ∧ bluetooth_applet_agent_reply_passkey bluetooth_applet_new (some "/dev/1") (some "0000")
      = (bluetooth_applet_new, [Effect.method_return none (DBusReturn.text "0000")])
    ∧ bluetooth_applet_agent_reply_pincode bluetooth_applet_new (some "/dev/1") 1234
      = (bluetooth_applet_new, [Effect.method_return none (DBusReturn.integer 1234)])
    ∧ bluetooth_applet_agent_reply_auth bluetooth_applet_new (some "/dev/1") false false false
      = (bluetooth_applet_new,
          [Effect.method_return_error none (agent_error_reject "Confirmation request rejected")]) := by
  decide

/-- C4 as stated fails at `v = -1`: after a pincode request for `/dev/1`, the
reply with pincode `-1` issues the rejection error, not a success carrying
`-1`, whatever the pointer. -/
theorem pincode_reply_minus_one_rejects :
    (bluetooth_applet_agent_reply_pincode
        (pincode_request 7 ⟨"/dev/1", none⟩ bluetooth_applet_new).self (some "/dev/1") (-1)).2
      = [Effect.method_return_error none (agent_error_reject "Pairing request rejected")]
    ∧ (bluetooth_applet_agent_reply_pincode
        (pincode_request 7 ⟨"/dev/1", none⟩ bluetooth_applet_new).self (some "/dev/1") (-1)).2
      ≠ [Effect.method_return (some 7) (DBusReturn.integer (-1))]
    ∧ (bluetooth_applet_agent_reply_pincode
        (pincode_request 7 ⟨"/dev/1", none⟩ bluetooth_applet_new).self (some "/dev/1") (-1)).2
      ≠ [Effect.method_return none (DBusReturn.integer (-1))] := by
  decide

/-- C4, amended: for every device path `p` and every integer `v` other than
`-1`, after an inbound pincode request for `p` the table has an entry for `p`,
the reply to `p` with pincode `v` issues exactly one call, a success carrying
exactly `v`, on the pointer stored for `p`, and the table no longer has an
entry for `p`. -/
theorem pincode_reply_returns_value (self : BluetoothApplet) (context : DBusGMethodInvocation)
    (device : DBusGProxy) (v : Int) (hv : v ≠ -1) :
    g_hash_table_contains (pincode_request context device self).self.pending_requests
        device.path = true
      ∧ (bluetooth_applet_agent_reply_pincode (pincode_request context device self).self
          (some device.path) v).2
        = [Effect.method_return
            (g_hash_table_lookup (pincode_request context device self).self.pending_requests
              device.path)
            (DBusReturn.integer v)]
      ∧ g_hash_table_contains
          (bluetooth_applet_agent_reply_pincode (pincode_request context device self).self
            (some device.path) v).1.pending_requests device.path = false := by
  refine ⟨?_, ?_, ?_⟩
  · simp only [pincode_request]
    exact g_hash_table_contains_insert_self _ _ _
  · simp only [bluetooth_applet_agent_reply_pincode]
    simp [hv]
  · simp only [bluetooth_applet_agent_reply_pincode]
    exact g_hash_table_contains_remove_self _ _

theorem pincode_reply_returns_value_witness :
    (1234 : Int) ≠ -1
      ∧ g_hash_table_contains
          (pincode_request 7 ⟨"/dev/1", none⟩ bluetooth_applet_new).self.pending_requests
          "/dev/1" = true
      ∧ (bluetooth_applet_agent_reply_pincode
          (pincode_request 7 ⟨"/dev/1", none⟩ bluetooth_applet_new).self (some "/dev/1") 1234).1
        = bluetooth_applet_new
      ∧ (bluetooth_applet_agent_reply_pincode
          (pincode_request 7 ⟨"/dev/1", none⟩ bluetooth_applet_new).self (some "/dev/1") 1234).2
        = [Effect.method_return
            (g_hash_table_lookup
              (pincode_request 7 ⟨"/dev/1", none⟩ bluetooth_applet_new).self.pending_requests
              "/dev/1")
            (DBusReturn.integer 1234)] :=
  ⟨by decide, by decide, by decide,
    (pincode_reply_returns_value bluetooth_applet_new 7 ⟨"/dev/1", none⟩ 1234
      (by decide)).2.1⟩

/-! ## Rejecting and accepting replies -/

/-- C5: in the code a rejecting reply for a registered token does not complete
the call context of the request. After a confirm request with call context `5`
for `/dev/2`, the reply `confirm = FALSE` issues its `AGENT_ERROR_REJECT` error
on NULL, because the table holds `g_object_ref (context)`, which is NULL; the
same holds for a NULL passkey, the pincode `-1` and `auth = FALSE`. The token is
removed and no success is issued. -/
theorem rejection_is_issued_on_null :
    bluetooth_applet_agent_reply_confirm
        (confirm_request 5 ⟨"/dev/2", none⟩ 123456 bluetooth_applet_new).self
        (some "/dev/2") false
      = (bluetooth_applet_new,
          [Effect.method_return_error none
            (agent_error_reject "Confirmation request rejected")])
    ∧ bluetooth_applet_agent_reply_passkey
        (passkey_request 5 ⟨"/dev/2", none⟩ bluetooth_applet_new).self (some "/dev/2") none
      = (bluetooth_applet_new,
          [Effect.method_return_error none (agent_error_reject "Pairing request rejected")])
    ∧ bluetooth_applet_agent_reply_pincode
        (pincode_request 5 ⟨"/dev/2", none⟩ bluetooth_applet_new).self (some "/dev/2") (-1)
      = (bluetooth_applet_new,
          [Effect.method_return_error none (agent_error_reject "Pairing request rejected")])
    ∧ bluetooth_applet_agent_reply_auth
        (authorize_request 5 ⟨"/dev/2", none⟩ "1105" bluetooth_applet_new).self
        (some "/dev/2") false true false
      = (bluetooth_applet_new,
          [Effect.method_return_error none
            (agent_error_reject "Confirmation request rejected")])
    ∧ completions 5
        (bluetooth_applet_agent_reply_confirm
          (confirm_request 5 ⟨"/dev/2", none⟩ 123456 bluetooth_applet_new).self
          (some "/dev/2") false).2 = 0 := by
  decide

/-- C6: in the code an accepting reply for a registered token does not complete
the call context of the request. After a request with call context `4` for
`/dev/1`, the passkey reply with the empty string, the confirm reply with TRUE
and the auth reply with `auth = TRUE` issue their success on NULL, because the
table holds `g_object_ref (context)`, which is NULL. The payload is the one
claimed and the token is removed. -/
theorem success_is_issued_on_null :
    bluetooth_applet_agent_reply_passkey
        (passkey_request 4 ⟨"/dev/1", none⟩ bluetooth_applet_new).self (some "/dev/1") (some "")
      = (bluetooth_applet_new, [Effect.method_return none (DBusReturn.text "")])
    ∧ bluetooth_applet_agent_reply_confirm
        (confirm_request 4 ⟨"/dev/1", none⟩ 123456 bluetooth_applet_new).self
        (some "/dev/1") true
      = (bluetooth_applet_new, [Effect.method_return none DBusReturn.nothing])
    ∧ bluetooth_applet_agent_reply_auth
        (authorize_request 4 ⟨"/dev/1", none⟩ "1105" bluetooth_applet_new).self
        (some "/dev/1") true false false
      = (bluetooth_applet_new, [Effect.method_return none DBusReturn.nothing])
    ∧ completions 4
        (bluetooth_applet_agent_reply_passkey
          (passkey_request 4 ⟨"/dev/1", none⟩ bluetooth_applet_new).self
          (some "/dev/1") (some "")).2 = 0 := by
  decide

/-! ## Cancel, trust, and a second request for the same device -/

/-- C7: in the code an inbound cancel does not complete the outstanding call
contexts. With requests for `/dev/1` (call context `1`) and `/dev/2` (call
context `2`) outstanding, the cancel issues its two rejection errors on NULL,
because the entries hold `g_object_ref (context)`, which is NULL; neither call
context is completed. The table is emptied and the cancel signal is emitted
once. -/
theorem cancel_rejects_null_pointers :
    (run bluetooth_applet_new
        [Op.inbound_pincode 1 ⟨"/dev/1", none⟩,
          Op.inbound_confirm 2 ⟨"/dev/2", none⟩ 123456]).1.pending_requests
      = [("/dev/1", none), ("/dev/2", none)]
    ∧ cancel_request 3
        (run bluetooth_applet_new
          [Op.inbound_pincode 1 ⟨"/dev/1", none⟩,
            Op.inbound_confirm 2 ⟨"/dev/2", none⟩ 123456]).1
      = { self := bluetooth_applet_new
          effects :=
            [Effect.method_return_error none (agent_error_reject "Agent callback cancelled"),
              Effect.method_return_error none (agent_error_reject "Agent callback cancelled"),
              Effect.signal_emit Signal.SIGNAL_CANCEL_REQUEST]
          ret := true }
    ∧ completions 1
        (cancel_request 3
          (run bluetooth_applet_new
            [Op.inbound_pincode 1 ⟨"/dev/1", none⟩,
              Op.inbound_confirm 2 ⟨"/dev/2", none⟩ 123456]).1).effects = 0
    ∧ completions 2
        (cancel_request 3
          (run bluetooth_applet_new
            [Op.inbound_pincode 1 ⟨"/dev/1", none⟩,
              Op.inbound_confirm 2 ⟨"/dev/2", none⟩ 123456]).1).effects = 0 := by
  decide

/-- C8: in the code an auth reply with `auth = TRUE` and `trusted = TRUE` does
ask the Bluetooth client to trust the device first, but then does not complete
the call context of the request. After an authorize request with call context
`9` for `/dev/3` the success is issued on NULL, because the table holds
`g_object_ref (context)`, which is NULL, whatever the client answers. -/
theorem trusted_auth_reply_completes_null :
    bluetooth_applet_agent_reply_auth
        (authorize_request 9 ⟨"/dev/3", none⟩ "1105" bluetooth_applet_new).self
        (some "/dev/3") true true false
      = (bluetooth_applet_new,
          [Effect.client_set_trusted "/dev/3" true false,
            Effect.method_return none DBusReturn.nothing])
    ∧ bluetooth_applet_agent_reply_auth
        (authorize_request 9 ⟨"/dev/3", none⟩ "1105" bluetooth_applet_new).self
        (some "/dev/3") true true true
      = (bluetooth_applet_new,
          [Effect.client_set_trusted "/dev/3" true true,
            Effect.method_return none DBusReturn.nothing])
    ∧ completions 9
        (bluetooth_applet_agent_reply_auth
          (authorize_request 9 ⟨"/dev/3", none⟩ "1105" bluetooth_applet_new).self
          (some "/dev/3") true true false).2 = 0 := by
  decide

/-- C9 as stated fails: a second pincode request for `/dev/1` while the table
still has the entry of the first does not fail. The handler returns TRUE and
emits its signal like the first one, and the call context of the first request
is not what the table holds for `/dev/1` afterwards. -/
theorem second_request_overwrites_first :
    g_hash_table_contains
        (pincode_request 1 ⟨"/dev/1", none⟩ bluetooth_applet_new).self.pending_requests
        "/dev/1" = true
    ∧ (pincode_request 2 ⟨"/dev/1", none⟩
        (pincode_request 1 ⟨"/dev/1", none⟩ bluetooth_applet_new).self).ret = true
    ∧ (pincode_request 2 ⟨"/dev/1", none⟩
        (pincode_request 1 ⟨"/dev/1", none⟩ bluetooth_applet_new).self).effects
      = [Effect.signal_emit (Signal.SIGNAL_PINCODE_REQUEST "/dev/1" none none true)]
    ∧ g_hash_table_lookup
        (pincode_request 2 ⟨"/dev/1", none⟩
          (pincode_request 1 ⟨"/dev/1", none⟩ bluetooth_applet_new).self).self.pending_requests
        "/dev/1"
      ≠ some 1 := by
  decide

/-- C9, amended: an inbound request for a device path that already has an entry
does not fail: each of the four handlers returns TRUE and overwrites the entry,
so the table then holds under the device path what the handler stores for the
new request; the number of entries and every entry under another key are
unchanged. -/
theorem request_for_pending_device_overwrites (self : BluetoothApplet)
    (context : DBusGMethodInvocation) (device : DBusGProxy) (pin : Nat) (uuid : String)
    (hold : g_hash_table_contains self.pending_requests device.path = true) :
    ∀ out ∈ [pincode_request context device self, passkey_request context device self,
             confirm_request context device pin self,
             authorize_request context device uuid self],
      out.ret = true
        ∧ g_hash_table_lookup out.self.pending_requests device.path = g_object_ref context
        ∧ g_hash_table_contains out.self.pending_requests device.path = true
        ∧ out.self.pending_requests.length = self.pending_requests.length
        ∧ (∀ entry : String × Option DBusGMethodInvocation, entry.1 ≠ device.path →
            (entry ∈ out.self.pending_requests ↔ entry ∈ self.pending_requests)) := by
  intro out hout
  simp only [List.mem_cons, List.mem_singleton, List.not_mem_nil, or_false] at hout
  rcases hout with rfl | rfl | rfl | rfl <;>
    exact ⟨rfl, g_hash_table_lookup_insert_self _ _ _,
      g_hash_table_contains_insert_self _ _ _,
      g_hash_table_insert_length_of_contains _ _ _ hold,
      fun entry hne => mem_g_hash_table_insert_of_ne _ _ _ entry hne⟩

theorem request_for_pending_device_overwrites_witness :
    g_hash_table_contains
        (run bluetooth_applet_new
          [Op.inbound_pincode 1 ⟨"/dev/1", none⟩,
            Op.inbound_confirm 3 ⟨"/dev/2", none⟩ 123456]).1.pending_requests "/dev/1" = true
    ∧ (pincode_request 2 ⟨"/dev/1", none⟩
        (run bluetooth_applet_new
          [Op.inbound_pincode 1 ⟨"/dev/1", none⟩,
            Op.inbound_confirm 3 ⟨"/dev/2", none⟩ 123456]).1).self.pending_requests.length
      = (run bluetooth_applet_new
          [Op.inbound_pincode 1 ⟨"/dev/1", none⟩,
            Op.inbound_confirm 3 ⟨"/dev/2", none⟩ 123456]).1.pending_requests.length
    ∧ (pincode_request 2 ⟨"/dev/1", none⟩
        (run bluetooth_applet_new
          [Op.inbound_pincode 1 ⟨"/dev/1", none⟩,
            Op.inbound_confirm 3 ⟨"/dev/2", none⟩ 123456]).1).self.pending_requests.length
      = 2 :=
  ⟨by decide,
    (request_for_pending_device_overwrites
      (run bluetooth_applet_new
        [Op.inbound_pincode 1 ⟨"/dev/1", none⟩,
          Op.inbound_confirm 3 ⟨"/dev/2", none⟩ 123456]).1 2 ⟨"/dev/1", none⟩ 0 ""
      (by decide) _ (List.mem_cons_self _ _)).2.2.2.1,
    by decide⟩

/-! ## Every request is resolved once -/

/-- C11: in the code the table does not map the device path to the call context
when a handler returns. Each of the four handlers inserts
`g_object_ref (context)`, which is NULL for a method invocation of dbus-glib:
after a request with call context `5` for `/dev/2` the table maps `/dev/2` to
NULL. The handler issues no completion and the entry is there before the signal
is emitted, but a reply given by a handler of the signal finds NULL and
completes NULL, not `5`. -/
theorem request_registers_null :
    (pincode_request 5 ⟨"/dev/2", none⟩ bluetooth_applet_new
        = { self := { bluetooth_applet_new with pending_requests := [("/dev/2", none)] }
            effects :=
              [Effect.signal_emit (Signal.SIGNAL_PINCODE_REQUEST "/dev/2" none none true)]
            ret := true })
    ∧ (passkey_request 5 ⟨"/dev/2", none⟩ bluetooth_applet_new).self.pending_requests
      = [("/dev/2", none)]
    ∧ (confirm_request 5 ⟨"/dev/2", none⟩ 123456 bluetooth_applet_new).self.pending_requests
      = [("/dev/2", none)]
    ∧ (authorize_request 5 ⟨"/dev/2", none⟩ "1105" bluetooth_applet_new).self.pending_requests
      = [("/dev/2", none)]
    ∧ g_hash_table_lookup
        (confirm_request 5 ⟨"/dev/2", none⟩ 123456 bluetooth_applet_new).self.pending_requests
        "/dev/2" = none
    ∧ confirm_request_observed
        (fun _ now => bluetooth_applet_agent_reply_confirm now (some "/dev/2") true)
        5 ⟨"/dev/2", none⟩ 123456 bluetooth_applet_new
      = { self := bluetooth_applet_new
          effects :=
            [Effect.signal_emit (Signal.SIGNAL_CONFIRM_REQUEST "/dev/2" none none 123456),
              Effect.method_return none DBusReturn.nothing]
          ret := true }
    ∧ (pincode_request_observed
        (fun _ now => bluetooth_applet_agent_reply_pincode now (some "/dev/2") 1234)
        5 ⟨"/dev/2", none⟩ bluetooth_applet_new).effects
      = [Effect.signal_emit (Signal.SIGNAL_PINCODE_REQUEST "/dev/2" none none true),
          Effect.method_return none (DBusReturn.integer 1234)]
    ∧ (passkey_request_observed
        (fun _ now => bluetooth_applet_agent_reply_passkey now (some "/dev/2") (some "0000"))
        5 ⟨"/dev/2", none⟩ bluetooth_applet_new).effects
      = [Effect.signal_emit (Signal.SIGNAL_PINCODE_REQUEST "/dev/2" none none false),
          Effect.method_return none (DBusReturn.text "0000")]
    ∧ (authorize_request_observed
        (fun _ now => bluetooth_applet_agent_reply_auth now (some "/dev/2") true false false)
        5 ⟨"/dev/2", none⟩ "1105" bluetooth_applet_new).effects
      = [Effect.signal_emit (Signal.SIGNAL_AUTHORIZE_REQUEST "/dev/2" none none "1105"),
          Effect.method_return none DBusReturn.nothing] := by
  decide

/-- C12: every inbound request emits exactly one signal, whose token is the
device path of the request: a pincode request the pincode signal with
`numeric = TRUE`, a passkey request the pincode signal with `numeric = FALSE`,
a confirm request the confirm signal with the pin it received, an authorize
request the authorize signal with the uuid it received; the signals of a
sequence of events are the signals of its members, in arrival order. -/
theorem request_emits_one_event (self : BluetoothApplet) (c : DBusGMethodInvocation)
    (device : DBusGProxy) (pin : Nat) (uuid : String) (ops : List Op) :
    emitted (pincode_request c device self).effects
        = [Signal.SIGNAL_PINCODE_REQUEST device.path (device_get_name device).1
            (device_get_name device).2 true]
      ∧ emitted (passkey_request c device self).effects
        = [Signal.SIGNAL_PINCODE_REQUEST device.path (device_get_name device).1
            (device_get_name device).2 false]
      ∧ emitted (confirm_request c device pin self).effects
        = [Signal.SIGNAL_CONFIRM_REQUEST device.path (device_get_name device).1
            (device_get_name device).2 pin]
      ∧ emitted (authorize_request c device uuid self).effects
        = [Signal.SIGNAL_AUTHORIZE_REQUEST device.path (device_get_name device).1
            (device_get_name device).2 uuid]
      ∧ emitted (run self ops).2
        = (ops.map (fun op => emitted (op.apply bluetooth_applet_new).2)).flatten :=
  ⟨rfl, rfl, rfl, rfl, emitted_run ops self bluetooth_applet_new⟩

/-! ## The device label -/

/-- C13: when the property fetch succeeds and carries the address `a`:
without a name `device_get_name` returns `a` as the name and the label is `a`
in single quotes; with a name `n` it returns `n` and the label is `n` in single
quotes, a space, and `a` in parentheses. -/
theorem device_get_name_formats (path : String) (hash : List (String × String)) (a : String)
    (haddress : properties_lookup hash "Address" = some a) :
    (properties_lookup hash "Name" = none →
        device_get_name ⟨path, some hash⟩ = (some a, some ("'" ++ a ++ "'")))
      ∧ (∀ n, properties_lookup hash "Name" = some n →
        device_get_name ⟨path, some hash⟩
          = (some n, some ("'" ++ n ++ "' (" ++ a ++ ")"))) := by
  constructor
  · intro hname
    simp [device_get_name, haddress, hname]
  · intro n hname
    simp [device_get_name, haddress, hname]

theorem device_get_name_formats_witness :
    properties_lookup [("Name", "Mouse"), ("Address", "00:11:22:33:44:55")] "Address"
        = some "00:11:22:33:44:55"
      ∧ properties_lookup [("Name", "Mouse"), ("Address", "00:11:22:33:44:55")] "Name"
        = some "Mouse"
      ∧ device_get_name ⟨"/dev/1", some [("Name", "Mouse"), ("Address", "00:11:22:33:44:55")]⟩
        = (some "Mouse", some "'Mouse' (00:11:22:33:44:55)")
      ∧ device_get_name ⟨"/dev/1", some [("Address", "00:11:22:33:44:55")]⟩
        = (some "00:11:22:33:44:55", some "'00:11:22:33:44:55'") :=
  ⟨by decide, by decide,
    (device_get_name_formats "/dev/1" [("Name", "Mouse"), ("Address", "00:11:22:33:44:55")]
      "00:11:22:33:44:55" (by decide)).2 "Mouse" (by decide),
    by decide⟩

/-- C14: in the code the call context is not registered when label resolution
fails, no more than when it succeeds: with properties that carry no address,
and with a failed property fetch, an authorize request with call context `6`
for `/dev/4` stores NULL under `/dev/4` (`g_object_ref (context)` is NULL). The
entry is made and the signal is emitted with name and label both NULL. -/
theorem label_failure_registers_null :
    device_get_name ⟨"/dev/4", some [("Name", "Mouse")]⟩ = (none, none)
    ∧ authorize_request 6 ⟨"/dev/4", some [("Name", "Mouse")]⟩ "1105" bluetooth_applet_new
      = { self := { bluetooth_applet_new with pending_requests := [("/dev/4", none)] }
          effects :=
            [Effect.signal_emit (Signal.SIGNAL_AUTHORIZE_REQUEST "/dev/4" none none "1105")]
          ret := true }
    ∧ pincode_request 6 ⟨"/dev/4", none⟩ bluetooth_applet_new
      = { self := { bluetooth_applet_new with pending_requests := [("/dev/4", none)] }
          effects :=
            [Effect.signal_emit (Signal.SIGNAL_PINCODE_REQUEST "/dev/4" none none true)]
          ret := true }
    ∧ g_hash_table_lookup
        (authorize_request 6 ⟨"/dev/4", some [("Name", "Mouse")]⟩ "1105"
          bluetooth_applet_new).self.pending_requests "/dev/4" = none := by
  decide

/-! ## The default adapter, the menu and the device list -/

/-- C15: recomputing the default adapter, alone or from the handlers of the row
signals of the model, leaves the table of pending requests as it is and issues
no completion; of the events of the agent and the user interface only an
inbound cancel issues more than one completion. -/
theorem default_adapter_change_keeps_requests (self : BluetoothApplet) :
    (∀ out ∈ [find_default_adapter self, device_added_or_changed self, device_removed self],
        out.1.pending_requests = self.pending_requests ∧ completed_contexts out.2 = [])
      ∧ (∀ (op : Op) (state : BluetoothApplet), (∀ context, op ≠ Op.inbound_cancel context) →
          (completed_contexts (op.apply state).2).length ≤ 1) := by
  obtain ⟨hpending, _, _, _, hdone⟩ := find_default_adapter_fields self
  have hchanged : (device_added_or_changed self).1.pending_requests = self.pending_requests
      ∧ completed_contexts (device_added_or_changed self).2 = [] := by
    refine ⟨hpending, ?_⟩
    simp only [device_added_or_changed, completed_contexts_append, hdone, List.nil_append]
    split_ifs <;> simp [completed_contexts, Effect.completed]
  refine ⟨?_, ?_⟩
  · intro out hout
    simp only [List.mem_cons, List.mem_singleton, List.not_mem_nil, or_false] at hout
    rcases hout with rfl | rfl | rfl
    · exact ⟨hpending, hdone⟩
    · exact hchanged
    · exact hchanged
  · intro op state hop
    rcases apply_shape state op with ⟨c, path, _, _, _, hnone⟩ | ⟨_, t, _, _, hone⟩
      | ⟨_, _, _, hnone⟩ | ⟨_, _, _, _⟩
    · simp [hnone]
    · simp [hone]
    · simp [hnone]
    · cases op with
      | inbound_cancel context => exact absurd rfl (hop context)
      | inbound_pincode context device => simp [Op.apply, pincode_request, completed_contexts, Effect.completed]
      | inbound_passkey context device => simp [Op.apply, passkey_request, completed_contexts, Effect.completed]
      | inbound_confirm context device pin => simp [Op.apply, confirm_request, completed_contexts, Effect.completed]
      | inbound_authorize context device uuid => simp [Op.apply, authorize_request, completed_contexts, Effect.completed]
      | reply_passkey request_key passkey =>
        cases request_key
        · simp [Op.apply, bluetooth_applet_agent_reply_passkey, completed_contexts]
        · simp [(apply_reply state (Op.reply_passkey _ passkey) _ rfl).2]
      | reply_pincode request_key pincode =>
        cases request_key
        · simp [Op.apply, bluetooth_applet_agent_reply_pincode, completed_contexts]
        · simp [(apply_reply state (Op.reply_pincode _ pincode) _ rfl).2]
      | reply_confirm request_key confirm =>
        cases request_key
        · simp [Op.apply, bluetooth_applet_agent_reply_confirm, completed_contexts]
        · simp [(apply_reply state (Op.reply_confirm _ confirm) _ rfl).2]
      | reply_auth request_key auth trusted trust_answer =>
        cases request_key
        · simp [Op.apply, bluetooth_applet_agent_reply_auth, completed_contexts]
        · simp [(apply_reply state (Op.reply_auth _ auth trusted trust_answer) _ rfl).2]

theorem default_adapter_change_keeps_requests_witness :
    find_default_adapter
        { bluetooth_applet_new with
          pending_requests := [("/dev/1", none), ("/dev/2", none)]
          client_model := [⟨true, true, false, "/org/bluez/hci0", []⟩] }
      = ({ bluetooth_applet_new with
            pending_requests := [("/dev/1", none), ("/dev/2", none)]
            client_model := [⟨true, true, false, "/org/bluez/hci0", []⟩]
            default_adapter := some 0
            agent := some { adapter := some "/org/bluez/hci0" }
            num_adapters_present := 1
            num_adapters_powered := 1 },
          [Effect.agent_unregister, Effect.agent_register (some "/org/bluez/hci0")])
      ∧ (device_added_or_changed
          { bluetooth_applet_new with
            pending_requests := [("/dev/1", none), ("/dev/2", none)]
            client_model := [⟨true, true, false, "/org/bluez/hci0", []⟩] }).1.pending_requests
        = [("/dev/1", none), ("/dev/2", none)] :=
  ⟨by decide,
    ((default_adapter_change_keeps_requests
        { bluetooth_applet_new with
          pending_requests := [("/dev/1", none), ("/dev/2", none)]
          client_model := [⟨true, true, false, "/org/bluez/hci0", []⟩] }).1
      _ (List.mem_cons_of_mem _ (List.mem_cons_self _ _))).1⟩

/-- C16: in the code `bluetooth_applet_agent_reply_pincode` does test for `-1`
as claimed, but for a registered token it does not complete the stored call
context: after a pincode request with call context `7` for `/dev/1` the
rejection for `-1` and the success for `0` and for `-2` are all issued on NULL,
because the table holds `g_object_ref (context)`, which is NULL. -/
theorem pincode_reply_is_issued_on_null :
    bluetooth_applet_agent_reply_pincode
        (pincode_request 7 ⟨"/dev/1", none⟩ bluetooth_applet_new).self (some "/dev/1") (-1)
      = (bluetooth_applet_new,
          [Effect.method_return_error none (agent_error_reject "Pairing request rejected")])
    ∧ bluetooth_applet_agent_reply_pincode
        (pincode_request 7 ⟨"/dev/1", none⟩ bluetooth_applet_new).self (some "/dev/1") 0
      = (bluetooth_applet_new, [Effect.method_return none (DBusReturn.integer 0)])
    ∧ bluetooth_applet_agent_reply_pincode
        (pincode_request 7 ⟨"/dev/1", none⟩ bluetooth_applet_new).self (some "/dev/1") (-2)
      = (bluetooth_applet_new, [Effect.method_return none (DBusReturn.integer (-2))])
    ∧ completions 7
        (bluetooth_applet_agent_reply_pincode
          (pincode_request 7 ⟨"/dev/1", none⟩ bluetooth_applet_new).self
          (some "/dev/1") 0).2 = 0 := by
  decide

/-- C17: `bluetooth_applet_get_show_full_menu` returns TRUE exactly when the
counter of adapters present is not zero, equals the counter of adapters powered,
and the killswitch state is `UNBLOCKED`, that is, when there is a killswitch and
the state the killswitch manager reports is `UNBLOCKED`; with zero adapters
present it returns FALSE whatever the killswitch, and without any killswitch the
state is `NO_ADAPTER` and it returns FALSE. After `find_default_adapter` the
counters are the number of adapter rows and the number of powered ones, so that
the menu is shown exactly when there is at least one adapter, all adapters are
powered, and a killswitch exists and is unblocked. -/
theorem show_full_menu_iff (self : BluetoothApplet) :
    (bluetooth_applet_get_show_full_menu self = true
        ↔ self.num_adapters_present ≠ 0
          ∧ self.num_adapters_present = self.num_adapters_powered
          ∧ bluetooth_applet_get_killswitch_state self
              = BluetoothKillswitchState.BLUETOOTH_KILLSWITCH_STATE_UNBLOCKED)
      ∧ (self.killswitch_manager.has_killswitches = true →
          bluetooth_applet_get_killswitch_state self = self.killswitch_manager.state)
      ∧ (bluetooth_applet_get_killswitch_state self
            = BluetoothKillswitchState.BLUETOOTH_KILLSWITCH_STATE_UNBLOCKED
          ↔ self.killswitch_manager.has_killswitches = true
            ∧ self.killswitch_manager.state
                = BluetoothKillswitchState.BLUETOOTH_KILLSWITCH_STATE_UNBLOCKED)
      ∧ (bluetooth_applet_get_show_full_menu self = true
        ↔ self.num_adapters_present ≠ 0
          ∧ self.num_adapters_present = self.num_adapters_powered
          ∧ self.killswitch_manager.has_killswitches = true
          ∧ self.killswitch_manager.state
              = BluetoothKillswitchState.BLUETOOTH_KILLSWITCH_STATE_UNBLOCKED)
      ∧ (self.num_adapters_present = 0 → bluetooth_applet_get_show_full_menu self = false)
      ∧ (self.killswitch_manager.has_killswitches = false →
          bluetooth_applet_get_killswitch_state self
              = BluetoothKillswitchState.BLUETOOTH_KILLSWITCH_STATE_NO_ADAPTER
            ∧ bluetooth_applet_get_show_full_menu self = false)
      ∧ ((find_default_adapter self).1.num_adapters_present = self.client_model.length
          ∧ (find_default_adapter self).1.num_adapters_powered
              = self.client_model.countP (fun row => row.powered))
      ∧ (bluetooth_applet_get_show_full_menu (find_default_adapter self).1 = true
          ↔ 1 ≤ self.client_model.length
            ∧ (∀ row ∈ self.client_model, row.powered = true)
            ∧ self.killswitch_manager.has_killswitches = true
            ∧ self.killswitch_manager.state
                = BluetoothKillswitchState.BLUETOOTH_KILLSWITCH_STATE_UNBLOCKED) := by
  have hmenu : ∀ (applet : BluetoothApplet),
      bluetooth_applet_get_show_full_menu applet = true
        ↔ applet.num_adapters_present ≠ 0
          ∧ applet.num_adapters_present = applet.num_adapters_powered
          ∧ bluetooth_applet_get_killswitch_state applet
              = BluetoothKillswitchState.BLUETOOTH_KILLSWITCH_STATE_UNBLOCKED := by
    intro applet
    by_cases hzero : applet.num_adapters_present = 0
    · simp [bluetooth_applet_get_show_full_menu, hzero]
    · simp [bluetooth_applet_get_show_full_menu, hzero]
  have hstate : ∀ (applet : BluetoothApplet),
      bluetooth_applet_get_killswitch_state applet
          = BluetoothKillswitchState.BLUETOOTH_KILLSWITCH_STATE_UNBLOCKED
        ↔ applet.killswitch_manager.has_killswitches = true
          ∧ applet.killswitch_manager.state
              = BluetoothKillswitchState.BLUETOOTH_KILLSWITCH_STATE_UNBLOCKED := by
    intro applet
    cases hhas : applet.killswitch_manager.has_killswitches <;>
      simp [bluetooth_applet_get_killswitch_state, hhas]
  obtain ⟨_, hswitch, hpresent, hpowered, _⟩ := find_default_adapter_fields self
  refine ⟨hmenu self, ?_, hstate self, ?_, ?_, ?_, ⟨hpresent, hpowered⟩, ?_⟩
  · intro hhas
    simp [bluetooth_applet_get_killswitch_state, hhas]
  · rw [hmenu, hstate]
  · intro hzero
    simp [bluetooth_applet_get_show_full_menu, hzero]
  · intro hnone
    have hno : bluetooth_applet_get_killswitch_state self
        = BluetoothKillswitchState.BLUETOOTH_KILLSWITCH_STATE_NO_ADAPTER := by
      simp [bluetooth_applet_get_killswitch_state, hnone]
    refine ⟨hno, ?_⟩
    by_cases hzero : self.num_adapters_present = 0
    · simp [bluetooth_applet_get_show_full_menu, hzero]
    · simp [bluetooth_applet_get_show_full_menu, hzero, hno]
  · rw [hmenu, hstate, hswitch, hpresent, hpowered]
    have hcount : self.client_model.countP (fun row => row.powered) = self.client_model.length
        ↔ ∀ row ∈ self.client_model, row.powered = true := List.countP_eq_length
    constructor
    · rintro ⟨hne, heq, hun⟩
      refine ⟨?_, hcount.mp (by exact_mod_cast heq.symm), hun⟩
      have : self.client_model.length ≠ 0 := by exact_mod_cast hne
      omega
    · rintro ⟨hone, hall, hun⟩
      refine ⟨?_, ?_, hun⟩
      · have : self.client_model.length ≠ 0 := by omega
        exact_mod_cast this
      · exact_mod_cast (hcount.mpr hall).symm

theorem show_full_menu_iff_witness :
    bluetooth_applet_get_show_full_menu
        (find_default_adapter
          { bluetooth_applet_new with
            killswitch_manager :=
              { has_killswitches := true
                state := BluetoothKillswitchState.BLUETOOTH_KILLSWITCH_STATE_UNBLOCKED }
            client_model := [⟨true, true, false, "/org/bluez/hci0", []⟩] }).1 = true
      ∧ bluetooth_applet_get_show_full_menu
        (find_default_adapter
          { bluetooth_applet_new with
            killswitch_manager :=
              { has_killswitches := true
                state := BluetoothKillswitchState.BLUETOOTH_KILLSWITCH_STATE_HARD_BLOCKED }
            client_model := [⟨true, true, false, "/org/bluez/hci0", []⟩] }).1 = false
      ∧ bluetooth_applet_get_show_full_menu
        (find_default_adapter
          { bluetooth_applet_new with
            killswitch_manager :=
              { has_killswitches := true
                state := BluetoothKillswitchState.BLUETOOTH_KILLSWITCH_STATE_SOFT_BLOCKED }
            client_model := [⟨true, true, false, "/org/bluez/hci0", []⟩] }).1 = false
      ∧ bluetooth_applet_get_show_full_menu
        (find_default_adapter
          { bluetooth_applet_new with
            killswitch_manager :=
              { has_killswitches := false
                state := BluetoothKillswitchState.BLUETOOTH_KILLSWITCH_STATE_UNBLOCKED }
            client_model := [⟨true, true, false, "/org/bluez/hci0", []⟩] }).1 = false
      ∧ bluetooth_applet_get_show_full_menu
        (find_default_adapter
          { bluetooth_applet_new with
            killswitch_manager :=
              { has_killswitches := true
                state := BluetoothKillswitchState.BLUETOOTH_KILLSWITCH_STATE_UNBLOCKED }
            client_model := [⟨true, true, false, "/org/bluez/hci0", []⟩,
              ⟨false, false, false, "/org/bluez/hci1", []⟩] }).1 = false
      ∧ bluetooth_applet_get_show_full_menu
        { bluetooth_applet_new with
          killswitch_manager :=
            { has_killswitches := true
              state := BluetoothKillswitchState.BLUETOOTH_KILLSWITCH_STATE_UNBLOCKED } }
        = false :=
  ⟨(show_full_menu_iff
      { bluetooth_applet_new with
        killswitch_manager :=
          { has_killswitches := true
            state := BluetoothKillswitchState.BLUETOOTH_KILLSWITCH_STATE_UNBLOCKED }
        client_model := [⟨true, true, false, "/org/bluez/hci0", []⟩] }).2.2.2.2.2.2.2.mpr
      ⟨by decide, by decide, rfl, rfl⟩,
    by decide, by decide, by decide, by decide, by decide⟩

/-- C18: `bluetooth_applet_get_devices` returns no device when there is no
default adapter, and otherwise one device per child row of the default adapter,
in model order; for each of them `connected` is TRUE exactly when the row has a
services table holding at least one `CONNECTED` or `PLAYING` state, and
`can_connect` is TRUE exactly when the row has a services table, empty or not. -/
theorem get_devices_lists_children (self : BluetoothApplet) :
    (self.default_adapter = none → bluetooth_applet_get_devices self = [])
      ∧ (∀ iter, self.default_adapter = some iter →
          bluetooth_applet_get_devices self
            = (gtk_tree_model_iter_children self.client_model iter).map
                bluetooth_simple_device_of_row)
      ∧ (∀ row : DeviceRow,
          ((bluetooth_simple_device_of_row row).connected = true
            ↔ ∃ services, row.services = some services
                ∧ ∃ entry ∈ services, entry.2 = BluetoothStatus.BLUETOOTH_STATUS_CONNECTED
                    ∨ entry.2 = BluetoothStatus.BLUETOOTH_STATUS_PLAYING)
          ∧ ((bluetooth_simple_device_of_row row).can_connect = true
            ↔ ∃ services, row.services = some services)) := by
  refine ⟨?_, ?_, ?_⟩
  · intro hnone
    simp [bluetooth_applet_get_devices, hnone]
  · intro iter hsome
    simp only [bluetooth_applet_get_devices, hsome]
    rw [foldl_prepend_reverse]
    simp
  · intro row
    cases hservices : row.services with
    | none => simp [bluetooth_simple_device_of_row, hservices]
    | some services =>
      simp only [bluetooth_simple_device_of_row, hservices, one_service_connected_iff]
      simp
      constructor
      · rintro ⟨val, ⟨key, hmem⟩, hval⟩
        exact ⟨key, val, hmem, hval⟩
      · rintro ⟨key, val, hmem, hval⟩
        exact ⟨val, ⟨key, hmem⟩, hval⟩

theorem get_devices_lists_children_witness :
    ({ bluetooth_applet_new with
        client_model :=
          [⟨true, true, false, "/org/bluez/hci0",
            [⟨"00:11", "/dev/1",
                some [("audio-sink", BluetoothStatus.BLUETOOTH_STATUS_DISCONNECTED),
                  ("headset", BluetoothStatus.BLUETOOTH_STATUS_PLAYING)], "Headset", none, 0⟩,
              ⟨"00:22", "/dev/2", some [], "Phone", some ["OBEXObjectPush"], 0⟩,
              ⟨"00:33", "/dev/3", none, "Mouse", none, 0⟩]⟩]
        default_adapter := some 0 } : BluetoothApplet).default_adapter = some 0
      ∧ bluetooth_applet_get_devices
        { bluetooth_applet_new with
          client_model :=
            [⟨true, true, false, "/org/bluez/hci0",
              [⟨"00:11", "/dev/1",
                  some [("audio-sink", BluetoothStatus.BLUETOOTH_STATUS_DISCONNECTED),
                    ("headset", BluetoothStatus.BLUETOOTH_STATUS_PLAYING)], "Headset", none, 0⟩,
                ⟨"00:22", "/dev/2", some [], "Phone", some ["OBEXObjectPush"], 0⟩,
                ⟨"00:33", "/dev/3", none, "Mouse", none, 0⟩]⟩]
          default_adapter := some 0 }
        = [⟨"00:11", "/dev/1", "Headset", true, true, ⟨false, false⟩, 0⟩,
           ⟨"00:22", "/dev/2", "Phone", false, true, ⟨true, false⟩, 0⟩,
           ⟨"00:33", "/dev/3", "Mouse", false, false, ⟨false, false⟩, 0⟩] :=
  ⟨rfl,
    ((get_devices_lists_children
        { bluetooth_applet_new with
          client_model :=
            [⟨true, true, false, "/org/bluez/hci0",
              [⟨"00:11", "/dev/1",
                  some [("audio-sink", BluetoothStatus.BLUETOOTH_STATUS_DISCONNECTED),
                    ("headset", BluetoothStatus.BLUETOOTH_STATUS_PLAYING)], "Headset", none, 0⟩,
                ⟨"00:22", "/dev/2", some [], "Phone", some ["OBEXObjectPush"], 0⟩,
                ⟨"00:33", "/dev/3", none, "Mouse", none, 0⟩]⟩]
          default_adapter := some 0 }).2.1 0 rfl).trans (by decide)⟩

/-- C19: the Bluetooth client is asked to mark a device trusted only by an auth
reply with `auth = TRUE` and `trusted = TRUE`, for the token of that reply and
with the value TRUE: no other reply, no inbound request and no cancel issues
the call, and it is never issued with the value FALSE. -/
theorem only_auth_reply_asks_for_trust (self : BluetoothApplet) (op : Op) (device : String)
    (trusted answer : Bool) :
    Effect.client_set_trusted device trusted answer ∈ (op.apply self).2
      ↔ trusted = true ∧ op = Op.reply_auth (some device) true true answer := by
  cases op with
  | inbound_pincode context dev => simp [Op.apply, pincode_request]
  | inbound_passkey context dev => simp [Op.apply, passkey_request]
  | inbound_confirm context dev pin => simp [Op.apply, confirm_request]
  | inbound_authorize context dev uuid => simp [Op.apply, authorize_request]
  | inbound_cancel context =>
    simp [Op.apply, cancel_request, g_hash_table_foreach_cancel]
  | reply_passkey request_key passkey =>
    cases request_key <;> cases passkey <;>
      simp [Op.apply, bluetooth_applet_agent_reply_passkey]
  | reply_pincode request_key pincode =>
    cases request_key
    · simp [Op.apply, bluetooth_applet_agent_reply_pincode]
    · by_cases hp : pincode = -1 <;> simp [Op.apply, bluetooth_applet_agent_reply_pincode, hp]
  | reply_confirm request_key confirm =>
    cases request_key <;> cases confirm <;>
      simp [Op.apply, bluetooth_applet_agent_reply_confirm]
  | reply_auth request_key auth remember trust_answer =>
    cases request_key <;> cases auth <;> cases remember <;>
      simp [Op.apply, bluetooth_applet_agent_reply_auth]
    constructor
    · rintro ⟨rfl, rfl, rfl⟩
      exact ⟨rfl, rfl, rfl⟩
    · rintro ⟨rfl, rfl, rfl⟩
      exact ⟨rfl, rfl, rfl⟩

theorem only_auth_reply_asks_for_trust_witness :
    trust_requests (bluetooth_applet_agent_reply_auth
        { bluetooth_applet_new with pending_requests := [("/dev/3", none)] }
        (some "/dev/3") true true false).2 = [("/dev/3", true)]
      ∧ trust_requests (bluetooth_applet_agent_reply_auth
        { bluetooth_applet_new with pending_requests := [("/dev/3", none)] }
        (some "/dev/3") false true true).2 = []
      ∧ trust_requests (bluetooth_applet_agent_reply_auth
        { bluetooth_applet_new with pending_requests := [("/dev/3", none)] }
        (some "/dev/3") true false true).2 = []
      ∧ Effect.client_set_trusted "/dev/3" true false
        ∈ ((Op.reply_auth (some "/dev/3") true true false).apply
            { bluetooth_applet_new with pending_requests := [("/dev/3", none)] }).2 :=
  ⟨by decide, by decide, by decide,
    (only_auth_reply_asks_for_trust
      { bluetooth_applet_new with pending_requests := [("/dev/3", none)] }
      (Op.reply_auth (some "/dev/3") true true false) "/dev/3" true false).mpr ⟨rfl, rfl⟩⟩

end GnomeBluetooth
